import Mathlib

/-!
Shallow embedding of the nekkus-hub Module Lifecycle and Aggregation Core.

Sources embedded:
- internal/manifest/manifest.go : the manifest data model.
- internal/registry/registry.go : ScanModules over a directory listing.
- internal/process/manager.go   : IsRunning, StartModule, StopModule,
  resolveExecutablePath, resolveModuleDataDir.
- internal/api/summary.go       : ModuleSummary, BuildModuleSummaries,
  fetchWidgetData.
- internal/api/handlers.go and internal/server/routes.go : the HTTP
  handlers for start, open-ui and stop.

Modelling conventions:
- Go maps become association lists (List (String × α)) with Go map
  semantics: mapLookup, mapInsert (replace on key collision), mapErase.
- File-system paths become lists of segments (List String);
  filepath.Join appends segments, filepath.Clean is modelled by
  cleanSegs which resolves ".." lexically as Go does for relative
  paths.
- Effects of the outside world (file existence, os.MkdirAll failure,
  cmd.Start failure, TCP readiness, gRPC replies, a directory read)
  are oracle parameters, so every embedded operation is a pure
  function of its inputs plus those oracles.
- The supervisor state MgrState carries, besides the processes map
  that the Go Manager owns, bookkeeping that the operating system
  owns in reality: livePids (which spawned processes are alive) and
  spawned (the log of exec.Command invocations), plus nextPid.
  A handle records whether the background exit-waiter goroutine of
  StartModule was spawned for it (waiterSpawned); reapStep models
  one execution of that goroutine body (cmd.Wait returning after the
  process died, then the map delete).
- Argument-vector and environment construction (buildModuleEnv) and
  the gRPC disconnect call body (tryDisconnectModule, whose error is
  discarded by StopModule) have no observable effect on any embedded
  state and are not modelled beyond their call sites.
-/

namespace NekkusHub

/-- Go map lookup over an association list: first binding of the key wins
(association lists here never hold duplicate keys, since mapInsert
replaces). -/
def mapLookup {α : Type} : List (String × α) → String → Option α
  | [], _ => none
  | (k, v) :: rest, key => if k = key then some v else mapLookup rest key

/-- Go map assignment: replace the binding in place if the key is
present, otherwise append it. -/
def mapInsert {α : Type} : List (String × α) → String → α → List (String × α)
  | [], key, v => [(key, v)]
  | (k, w) :: rest, key, v =>
    if k = key then (key, v) :: rest else (k, w) :: mapInsert rest key v

/-- Go delete on a map: drop the binding of the key, if any. -/
def mapErase {α : Type} : List (String × α) → String → List (String × α)
  | [], _ => []
  | (k, v) :: rest, key =>
    if k = key then rest else (k, v) :: mapErase rest key

/-- WidgetConfig from internal/manifest/manifest.go. -/
structure WidgetConfig where
  type : String := ""
  component : String := ""
  height : Int := 0
  updateInterval : String := ""
  supportsResize : Bool := false
deriving DecidableEq

/-- The optional config block of a manifest (storage_path). -/
structure ModuleConfig where
  storagePath : String := ""
deriving DecidableEq

/-- ModuleManifest from internal/manifest/manifest.go. The Executable
Go map (which may be nil) becomes an Option over an association list. -/
structure ModuleManifest where
  id : String := ""
  name : String := ""
  description : String := ""
  version : String := ""
  widget : WidgetConfig := {}
  grpcAddr : String := ""
  executable : Option (List (String × String)) := none
  config : Option ModuleConfig := none
deriving DecidableEq

/-! ## Registry (internal/registry/registry.go) -/

/-- Outcome of reading and unmarshalling manifest.json inside one
directory entry: the os.ReadFile error case, the json.Unmarshal error
case, or a parsed manifest (whose ID may still be empty). -/
inductive ManifestFile where
  | missing
  | invalid
  | parsed (m : ModuleManifest)
deriving DecidableEq

/-- One entry of the os.ReadDir listing of the modules directory. -/
structure DirEntry where
  name : String := ""
  isDir : Bool
  file : ManifestFile
deriving DecidableEq

/-- The manifests table of the Registry. -/
abbrev Store := List (String × ModuleManifest)

/-- The manifest an entry contributes, if any: the entry must be a
directory, its manifest.json must read and parse, and the parsed ID
must be non-empty; otherwise ScanModules skips the entry. -/
def validOf (e : DirEntry) : Option ModuleManifest :=
  if e.isDir then
    match e.file with
    | .parsed m => if m.id = "" then none else some m
    | _ => none
  else none

/-- All manifests a listing installs, in listing order. -/
def validManifests (entries : List DirEntry) : List ModuleManifest :=
  entries.filterMap validOf

/-- The per-entry loop of ScanModules: skip non-directories, read
errors, unmarshal errors and empty IDs; install every other manifest
under its ID (overwriting a previous binding). -/
def scanLoop : Store → List DirEntry → Store
  | store, [] => store
  | store, e :: rest =>
    if e.isDir then
      match e.file with
      | .missing => scanLoop store rest
      | .invalid => scanLoop store rest
      | .parsed m =>
        if m.id = "" then scanLoop store rest
        else scanLoop (mapInsert store m.id m) rest
    else scanLoop store rest

/-- ScanModules from internal/registry/registry.go: an os.ReadDir
failure is returned as the only error; otherwise the entry loop runs
and the call succeeds. -/
def scanModules (dir : Except String (List DirEntry)) (store : Store) :
    Except String Store :=
  match dir with
  | .error e => .error e
  | .ok entries => .ok (scanLoop store entries)

/-! ## Paths -/

/-- One application of the lexical filepath.Clean rule to the next
segment of a relative path: drop "." and empty segments, let ".."
cancel the preceding segment when that segment is not itself "..". -/
def cleanStep (acc : List String) (seg : String) : List String :=
  if seg = "." ∨ seg = "" then acc
  else if seg = ".." then
    match acc.getLast? with
    | some l => if l = ".." then acc ++ [".."] else acc.dropLast
    | none => [".."]
  else acc ++ [seg]

/-- Lexical path cleaning over segment lists, as filepath.Clean does
for relative paths. -/
def cleanSegs (segs : List String) : List String :=
  segs.foldl cleanStep []

/-! ## Process manager (internal/process/manager.go) -/

/-- A binding of the Manager processes map. The Go value is an
exec.Cmd whose Process is non-nil (it is inserted only after a
successful cmd.Start). exitedObserved models a non-nil ProcessState
with Exited() true, which only cmd.Wait can produce; waiterSpawned
records whether the background exit-waiter goroutine of StartModule
exists for this handle. -/
structure ProcHandle where
  pid : Nat
  exitedObserved : Bool
  waiterSpawned : Bool
deriving DecidableEq

/-- The record of one exec.Command invocation: resolved executable
path, working directory, and data directory passed via --data-dir. -/
structure SpawnRec where
  exe : List String
  dir : List String
  dataDir : List String
deriving DecidableEq

/-- Manager state plus the operating-system facts the embedding needs:
processes is the Go map; livePids lists the spawned OS processes that
have not exited; spawned logs every exec.Command launch; nextPid
supplies fresh process IDs. -/
structure MgrState where
  processes : List (String × ProcHandle) := []
  livePids : List Nat := []
  nextPid : Nat := 0
  spawned : List SpawnRec := []
deriving DecidableEq

/-- IsRunning from manager.go: false when no handle (or no Process) is
present, otherwise true unless a ProcessState with Exited() true has
been observed. -/
def isRunning (st : MgrState) (moduleID : String) : Bool :=
  match mapLookup st.processes moduleID with
  | none => false
  | some h => !h.exitedObserved

/-- Oracle bundle for one StartModule call: the GOOS value, file and
directory existence, the os.MkdirAll outcome, the cmd.Start outcome,
whether waitForTCP reaches the gRPC address before its 5s deadline,
and the OS-specific base directory netModuleDataDir builds on. -/
structure StartEnv where
  goos : String
  fs : List String → Bool
  dirIsDir : List String → Bool
  mkdirErr : Option String := none
  spawnErr : Option String := none
  ready : Bool
  netDataBase : List String := []

/-- resolveExecutablePath from manager.go: require an executable map
and a name for the current GOOS; prefer modulesDir/<id>/<name>; for
com.nekkus.net fall back to the sibling repository root, then its
build/bin, then its bin; when nothing is found report the
requireRelease error for com.nekkus.net if the flag is set, else the
generic not-found error. -/
def resolveExecutablePath (goos : String) (fs : List String → Bool)
    (m : ModuleManifest) (modulesDir : List String) (requireRelease : Bool) :
    Except String (List String) :=
  match m.executable with
  | none => .error ("executable is not configured for " ++ m.id)
  | some exeMap =>
    let exeName := (mapLookup exeMap goos).getD ""
    if exeName = "" then
      .error ("executable for " ++ m.id ++ " is not set for " ++ goos)
    else
      let moduleDir := modulesDir ++ [m.id]
      let candidate := moduleDir ++ [exeName]
      if fs candidate then .ok candidate
      else if m.id = "com.nekkus.net" then
        let repoBase := cleanSegs (modulesDir ++ ["..", "..", "nekkus-net"])
        let rootCandidate := repoBase ++ [exeName]
        if fs rootCandidate then .ok rootCandidate
        else
          let buildCandidate := repoBase ++ ["build", "bin", exeName]
          if fs buildCandidate then .ok buildCandidate
          else
            let binCandidate := repoBase ++ ["bin", exeName]
            if fs binCandidate then .ok binCandidate
            else if requireRelease then
              .error ("release build not found for " ++ m.id ++
                "; run: cd nekkus-net && go build -o " ++ exeName ++ " ./cmd")
            else .error ("executable not found for " ++ m.id)
      else .error ("executable not found for " ++ m.id)

/-- resolveModuleDataDir from manager.go: com.nekkus.net shares the
standalone data directory (netModuleDataDir, an OS-specific base plus
nekkus/net); other modules use modulesDir/<id>/data unless the
manifest config overrides storage_path. -/
def resolveModuleDataDir (env : StartEnv) (m : ModuleManifest)
    (modulesDir : List String) : List String :=
  if m.id = "com.nekkus.net" then env.netDataBase ++ ["nekkus", "net"]
  else
    match m.config with
    | some cfg =>
      if cfg.storagePath = "" then modulesDir ++ [m.id, "data"]
      else modulesDir ++ [m.id, cfg.storagePath]
    | none => modulesDir ++ [m.id, "data"]

/-- The spawn half of StartModule (manager.go lines 62-111), entered
after the id, grpc_addr and already-running checks: resolve the
executable, create the data directory, launch the process, record the
handle, run the readiness probe; on probe timeout kill the process and
return the not-ready error leaving the handle in the map with no
exit waiter; on success spawn the exit waiter. -/
def startFresh (env : StartEnv) (st : MgrState) (m : ModuleManifest)
    (modulesDir : List String) (requireRelease : Bool) :
    Except String Unit × MgrState :=
  match resolveExecutablePath env.goos env.fs m modulesDir requireRelease with
  | .error e => (.error e, st)
  | .ok exePath =>
    let dataDir := resolveModuleDataDir env m modulesDir
    match env.mkdirErr with
    | some e => (.error ("failed to create data dir: " ++ e), st)
    | none =>
      let moduleDir := modulesDir ++ [m.id]
      let cwd := if env.dirIsDir moduleDir then moduleDir else exePath.dropLast
      match env.spawnErr with
      | some e => (.error e, st)
      | none =>
        let pid := st.nextPid
        let st1 : MgrState :=
          { st with
            nextPid := st.nextPid + 1
            livePids := st.livePids ++ [pid]
            spawned := st.spawned ++ [{ exe := exePath, dir := cwd, dataDir := dataDir }]
            processes := mapInsert st.processes m.id
              { pid := pid, exitedObserved := false, waiterSpawned := false } }
        if env.ready then
          (.ok (),
           { st1 with
             processes := mapInsert st1.processes m.id
               { pid := pid, exitedObserved := false, waiterSpawned := true } })
        else
          (.error ("grpc not ready at " ++ m.grpcAddr),
           { st1 with livePids := st1.livePids.erase pid })

/-- StartModule from manager.go: reject an empty id or grpc_addr;
return success without side effect when a live handle already exists
(the inline check of line 56 is the same condition as IsRunning);
otherwise run the spawn sequence. The showUI flag is forwarded to
resolveExecutablePath as requireRelease. -/
def startModule (env : StartEnv) (st : MgrState) (m : ModuleManifest)
    (modulesDir : List String) (hubAddr : String)
    (showUI autoConnect : Bool) : Except String Unit × MgrState :=
  if m.id = "" then (.error "module id is required", st)
  else if m.grpcAddr = "" then
    (.error ("grpc_addr is required for " ++ m.id), st)
  else if isRunning st m.id then (.ok (), st)
  else startFresh env st m modulesDir showUI

/-- StopModule from manager.go. The first lookup returns success when
no handle exists; tryDisconnectModule is then attempted with its error
discarded (no effect on any embedded state); sleep models the state
other threads may produce during the 500ms grace period; the second
lookup returns success when the handle vanished meanwhile; otherwise
the process is killed (its kill error discarded) and the handle
deleted. Every path returns a nil error. -/
def stopModule (sleep : MgrState → MgrState) (st : MgrState)
    (m : ModuleManifest) : Except String Unit × MgrState :=
  match mapLookup st.processes m.id with
  | none => (.ok (), st)
  | some _ =>
    let st2 := sleep st
    match mapLookup st2.processes m.id with
    | none => (.ok (), st2)
    | some h =>
      (.ok (),
       { st2 with
         livePids := st2.livePids.erase h.pid,
         processes := mapErase st2.processes m.id })

/-- The exit-waiter goroutine body for a module is runnable exactly
when its handle exists, the waiter was spawned, and the OS process has
exited (cmd.Wait has returned). -/
def reapEnabled (st : MgrState) (moduleID : String) : Bool :=
  match mapLookup st.processes moduleID with
  | none => false
  | some h => h.waiterSpawned && !(st.livePids.contains h.pid)

/-- One execution of the exit-waiter goroutine body: when runnable it
deletes the handle of the module, otherwise nothing happens. -/
def reapStep (st : MgrState) (moduleID : String) : MgrState :=
  if reapEnabled st moduleID then
    { st with processes := mapErase st.processes moduleID }
  else st

/-- A spontaneous exit of an OS process (crash or self-termination):
the pid leaves the live set. -/
def exitStep (st : MgrState) (pid : Nat) : MgrState :=
  { st with livePids := st.livePids.erase pid }

/-! ## Summary aggregation (internal/api/summary.go) -/

/-- One widget descriptor returned by the GetWidgets RPC. -/
structure Widget where
  id : String := ""
  title : String := ""
deriving DecidableEq

/-- ModuleSummary from summary.go; Payload is json.RawMessage, none
when omitted. -/
structure ModuleSummary where
  manifest : ModuleManifest
  widgetType : String := ""
  payload : Option String := none
  error : String := ""
  running : Bool := false
deriving DecidableEq

/-- The network oracle for fetchWidgetData: dialing a gRPC address and
calling GetWidgets either fails (dial error or RPC error, both
surfaced the same way by the Go code) or yields a widget list. -/
abbrev NetOracle := String → Except String (List Widget)

/-- fetchWidgetData from summary.go: an empty address is a
configuration error; a dial or GetWidgets failure is returned as the
error; an empty widget list yields an empty widget type; otherwise the
type is the first widget id, or its title when the id is empty. The
payload result is always nil in this version. -/
def fetchWidgetData (net : NetOracle) (addr : String) :
    Except String (String × Option String) :=
  if addr = "" then .error "grpc_addr is not set in manifest"
  else
    match net addr with
    | .error e => .error e
    | .ok widgets =>
      match widgets with
      | [] => .ok ("", none)
      | w0 :: _ =>
        .ok ((if w0.id = "" then w0.title else w0.id), none)

/-- The loop body of BuildModuleSummaries for one manifest: start from
the manifest, record IsRunning, and for a running module either record
the fetched widget type and payload or the fetch error. -/
def summarizeModule (net : NetOracle) (st : MgrState)
    (module : ModuleManifest) : ModuleSummary :=
  let running := isRunning st module.id
  if running then
    match fetchWidgetData net module.grpcAddr with
    | .error e => { manifest := module, running := true, error := e }
    | .ok (wt, payload) =>
      { manifest := module, running := true, widgetType := wt, payload := payload }
  else { manifest := module, running := false }

/-- The append loop of BuildModuleSummaries. -/
def buildSummariesLoop (net : NetOracle) (st : MgrState)
    (acc : List ModuleSummary) : List ModuleManifest → List ModuleSummary
  | [] => acc
  | module :: rest =>
    buildSummariesLoop net st (acc ++ [summarizeModule net st module]) rest

/-- BuildModuleSummaries from summary.go: one summary per manifest, in
input order. -/
def buildModuleSummaries (net : NetOracle) (st : MgrState)
    (modules : List ModuleManifest) : List ModuleSummary :=
  buildSummariesLoop net st [] modules

/-! ## HTTP handlers (internal/api/handlers.go, internal/server/routes.go) -/

/-- An HTTP reply as the handlers produce it: status code, plus the
error field of the JSON body when the reply is an error object (none
for a success body). -/
structure HttpResp where
  status : Nat
  errField : Option String := none
deriving DecidableEq

/-- The registry manifests table as the handlers see it. -/
abbrev RegTable := List (String × ModuleManifest)

/-- GetManifest from registry.go. -/
def getManifest (reg : RegTable) (id : String) : Option ModuleManifest :=
  mapLookup reg id

/-- Result of one handler invocation: the HTTP reply, the manager
state afterwards, and the list of supervisor operations invoked
(instrumentation showing whether the handler reached the process
manager at all). -/
structure HandlerResult where
  resp : HttpResp
  st : MgrState
  calls : List String
deriving DecidableEq

/-- The module action handler of internal/api/handlers.go (after URL
parsing has produced the module ID and action): look the manifest up,
answer 404 when it is unknown, then dispatch on the action — start,
open-ui (stop with discarded result, then start with the UI flag),
stop, or 404 for an unknown action. A supervisor error becomes a 400
reply. -/
def handleModuleAction (env : StartEnv) (sleep : MgrState → MgrState)
    (reg : RegTable) (st : MgrState) (modulesDir : List String)
    (grpcAddr : String) (moduleID action : String) : HandlerResult :=
  match getManifest reg moduleID with
  | none => { resp := { status := 404, errField := some "module not found" }, st := st, calls := [] }
  | some m =>
    match action with
    | "start" =>
      match startModule env st m modulesDir grpcAddr false true with
      | (.error e, st1) =>
        { resp := { status := 400, errField := some e }, st := st1, calls := ["start"] }
      | (.ok _, st1) =>
        { resp := { status := 200 }, st := st1, calls := ["start"] }
    | "open-ui" =>
      let (_, stStopped) := stopModule sleep st m
      match startModule env stStopped m modulesDir grpcAddr true false with
      | (.error e, st1) =>
        { resp := { status := 400, errField := some e }, st := st1, calls := ["stop", "start"] }
      | (.ok _, st1) =>
        { resp := { status := 200 }, st := st1, calls := ["stop", "start"] }
    | "stop" =>
      match stopModule sleep st m with
      | (.error e, st1) =>
        { resp := { status := 400, errField := some e }, st := st1, calls := ["stop"] }
      | (.ok _, st1) =>
        { resp := { status := 200 }, st := st1, calls := ["stop"] }
    | _ =>
      { resp := { status := 404, errField := some "unknown action" }, st := st, calls := [] }

/-- The POST /api/modules/(id)/start handler of routes.go: 404 when
the path value is empty or the manifest is unknown, 400 on a
StartModule error, 200 otherwise. -/
def handleStartRoute (env : StartEnv) (reg : RegTable) (st : MgrState)
    (modulesDir : List String) (grpcAddr : String) (moduleID : String) :
    HandlerResult :=
  if moduleID = "" then
    { resp := { status := 404, errField := some "invalid module route" }, st := st, calls := [] }
  else
    match getManifest reg moduleID with
    | none => { resp := { status := 404, errField := some "module not found" }, st := st, calls := [] }
    | some m =>
      match startModule env st m modulesDir grpcAddr false true with
      | (.error e, st1) =>
        { resp := { status := 400, errField := some e }, st := st1, calls := ["start"] }
      | (.ok _, st1) =>
        { resp := { status := 200 }, st := st1, calls := ["start"] }

/-- The POST /api/modules/(id)/open-ui handler of routes.go. -/
def handleOpenUIRoute (env : StartEnv) (sleep : MgrState → MgrState)
    (reg : RegTable) (st : MgrState) (modulesDir : List String)
    (grpcAddr : String) (moduleID : String) : HandlerResult :=
  if moduleID = "" then
    { resp := { status := 404, errField := some "invalid module route" }, st := st, calls := [] }
  else
    match getManifest reg moduleID with
    | none => { resp := { status := 404, errField := some "module not found" }, st := st, calls := [] }
    | some m =>
      let (_, stStopped) := stopModule sleep st m
      match startModule env stStopped m modulesDir grpcAddr true false with
      | (.error e, st1) =>
        { resp := { status := 400, errField := some e }, st := st1, calls := ["stop", "start"] }
      | (.ok _, st1) =>
        { resp := { status := 200 }, st := st1, calls := ["stop", "start"] }

/-- The POST /api/modules/(id)/stop handler of routes.go. -/
def handleStopRoute (sleep : MgrState → MgrState) (reg : RegTable)
    (st : MgrState) (moduleID : String) : HandlerResult :=
  if moduleID = "" then
    { resp := { status := 404, errField := some "invalid module route" }, st := st, calls := [] }
  else
    match getManifest reg moduleID with
    | none => { resp := { status := 404, errField := some "module not found" }, st := st, calls := [] }
    | some m =>
      match stopModule sleep st m with
      | (.error e, st1) =>
        { resp := { status := 400, errField := some e }, st := st1, calls := ["stop"] }
      | (.ok _, st1) =>
        { resp := { status := 200 }, st := st1, calls := ["stop"] }

/-! ## Map lemmas -/

theorem mapLookup_insert_self {α : Type} (l : List (String × α)) (k : String) (v : α) :
    mapLookup (mapInsert l k v) k = some v := by
  induction l with
  | nil => simp [mapInsert, mapLookup]
  | cons p rest ih =>
    obtain ⟨k0, v0⟩ := p
    by_cases h : k0 = k
    · simp [mapInsert, h, mapLookup]
    · simp [mapInsert, h, mapLookup, ih]

theorem mapLookup_insert_ne {α : Type} (l : List (String × α)) (k k' : String) (v : α)
    (h : k' ≠ k) : mapLookup (mapInsert l k v) k' = mapLookup l k' := by
  have hne : ¬k = k' := fun hh => h hh.symm
  induction l with
  | nil => simp [mapInsert, mapLookup, hne]
  | cons p rest ih =>
    obtain ⟨k0, v0⟩ := p
    by_cases h0 : k0 = k
    · subst h0
      simp [mapInsert, mapLookup, hne]
    · simp [mapInsert, h0, mapLookup, ih]

theorem mapLookup_append_of_none {α : Type} (s t : List (String × α)) (k : String)
    (h : mapLookup s k = none) : mapLookup (s ++ t) k = mapLookup t k := by
  induction s with
  | nil => simp
  | cons p rest ih =>
    obtain ⟨k0, v0⟩ := p
    by_cases h0 : k0 = k
    · simp [mapLookup, h0] at h
    · simp [mapLookup, h0] at h ⊢
      exact ih h

theorem mapLookup_append_of_some {α : Type} (s t : List (String × α)) (k : String) (v : α)
    (h : mapLookup s k = some v) : mapLookup (s ++ t) k = some v := by
  induction s with
  | nil => simp [mapLookup] at h
  | cons p rest ih =>
    obtain ⟨k0, v0⟩ := p
    by_cases h0 : k0 = k
    · simp [mapLookup, h0] at h ⊢
      exact h
    · simp [mapLookup, h0] at h ⊢
      exact ih h

theorem mapInsert_of_absent {α : Type} (l : List (String × α)) (k : String) (v : α)
    (h : mapLookup l k = none) : mapInsert l k v = l ++ [(k, v)] := by
  induction l with
  | nil => simp [mapInsert]
  | cons p rest ih =>
    obtain ⟨k0, v0⟩ := p
    by_cases h0 : k0 = k
    · simp [mapLookup, h0] at h
    · simp [mapLookup, h0] at h
      simp [mapInsert, h0, ih h]

/-! ## Summary lemmas and claims C10, C2 -/

theorem summarizeModule_manifest (net : NetOracle) (st : MgrState) (m : ModuleManifest) :
    (summarizeModule net st m).manifest = m := by
  by_cases h : isRunning st m.id
  · cases hf : fetchWidgetData net m.grpcAddr with
    | error e => simp [summarizeModule, h, hf]
    | ok p => obtain ⟨wt, payload⟩ := p; simp [summarizeModule, h, hf]
  · simp [summarizeModule, h]

theorem buildSummariesLoop_eq (net : NetOracle) (st : MgrState) :
    ∀ (ms : List ModuleManifest) (acc : List ModuleSummary),
      buildSummariesLoop net st acc ms = acc ++ ms.map (summarizeModule net st) := by
  intro ms
  induction ms with
  | nil => intro acc; simp [buildSummariesLoop]
  | cons m rest ih =>
    intro acc
    rw [buildSummariesLoop, ih]
    simp

theorem buildModuleSummaries_eq_map (net : NetOracle) (st : MgrState)
    (ms : List ModuleManifest) :
    buildModuleSummaries net st ms = ms.map (summarizeModule net st) := by
  rw [buildModuleSummaries, buildSummariesLoop_eq]
  simp

/-- C10: BuildModuleSummaries returns one summary per input manifest,
in the same order, and the Manifest field of the i-th summary is the
i-th input manifest unchanged. -/
theorem c10_summary_preserves_manifests (net : NetOracle) (st : MgrState)
    (ms : List ModuleManifest) (i : Nat) :
    (buildModuleSummaries net st ms).length = ms.length ∧
    ((buildModuleSummaries net st ms)[i]?).map ModuleSummary.manifest = ms[i]? := by
  rw [buildModuleSummaries_eq_map]
  constructor
  · simp
  · rw [List.getElem?_map]
    cases h : ms[i]? with
    | none => simp
    | some m => simp [summarizeModule_manifest]

/-- C2: summary produces one entry per manifest; each entry depends
only on its own manifest; a non-running module yields running false
with no payload and no error; a running module whose fetch fails
yields running true, the failure reason in the error field and no
payload; no fetch failure aborts the other entries. -/
theorem c2_summary_error_isolation (net : NetOracle) (st : MgrState)
    (ms : List ModuleManifest) (i : Nat) :
    (buildModuleSummaries net st ms).length = ms.length ∧
    ((buildModuleSummaries net st ms)[i]? = (ms[i]?).map (summarizeModule net st)) ∧
    (∀ m, ms[i]? = some m → isRunning st m.id = false →
      (buildModuleSummaries net st ms)[i]? = some { manifest := m, running := false }) ∧
    (∀ m e, ms[i]? = some m → isRunning st m.id = true →
      fetchWidgetData net m.grpcAddr = .error e →
      (buildModuleSummaries net st ms)[i]? =
        some { manifest := m, running := true, error := e }) := by
  rw [buildModuleSummaries_eq_map]
  refine ⟨by simp, by rw [List.getElem?_map], ?_, ?_⟩
  · intro m hm hrun
    rw [List.getElem?_map, hm]
    simp [summarizeModule, hrun]
  · intro m e hm hrun hfetch
    rw [List.getElem?_map, hm]
    simp [summarizeModule, hrun, hfetch]

/-- Fixture: a manager state in which module m1 is running. -/
def stRunW : MgrState :=
  { processes := [("m1", { pid := 0, exitedObserved := false, waiterSpawned := true })],
    livePids := [0], nextPid := 1 }

/-- Fixture: a network in which every gRPC fetch is refused. -/
def netRefusedW : NetOracle := fun _ => .error "connection refused"

/-- Fixture manifest of a running module. -/
def m1W : ModuleManifest := { id := "m1", grpcAddr := "127.0.0.1:19101" }

/-- Fixture manifest of a module that is not running. -/
def m2W : ModuleManifest := { id := "m2", grpcAddr := "127.0.0.1:19102" }

/-- Witness for C2: with m1 running but unreachable and m2 not
running, the batch yields the error summary for m1 and the plain
not-running summary for m2. -/
theorem c2_summary_error_isolation_witness :
    (buildModuleSummaries netRefusedW stRunW [m1W, m2W])[0]? =
      some { manifest := m1W, running := true, error := "connection refused" } ∧
    (buildModuleSummaries netRefusedW stRunW [m1W, m2W])[1]? =
      some { manifest := m2W, running := false } := by
  constructor
  · exact (c2_summary_error_isolation netRefusedW stRunW [m1W, m2W] 0).2.2.2
      m1W "connection refused" (by decide) (by decide) (by rfl)
  · exact (c2_summary_error_isolation netRefusedW stRunW [m1W, m2W] 1).2.2.1
      m2W (by decide) (by decide)

/-! ## Stop and handler claims C8, C9, C7 -/

/-- C8: stopping a module whose ID has no handle in the table is a
no-op: StopModule returns success and the state (handle table
included) is unchanged. -/
theorem c8_stop_without_handle_noop (sleep : MgrState → MgrState)
    (st : MgrState) (m : ModuleManifest)
    (h : mapLookup st.processes m.id = none) :
    stopModule sleep st m = (.ok (), st) := by
  simp [stopModule, h]

/-- Witness for C8: stopping m2 on an empty manager succeeds and
changes nothing. -/
theorem c8_stop_without_handle_noop_witness :
    stopModule id {} m2W = (.ok (), {}) :=
  c8_stop_without_handle_noop id {} m2W (by decide)

theorem stopModule_fst_ok (sleep : MgrState → MgrState) (st : MgrState)
    (m : ModuleManifest) : (stopModule sleep st m).fst = .ok () := by
  unfold stopModule
  cases h1 : mapLookup st.processes m.id with
  | none => rfl
  | some c =>
    cases h2 : mapLookup (sleep st).processes m.id with
    | none => simp [h2]
    | some h => simp [h2]

/-- C9: StopModule returns a nil error on every path, so the stop
handlers (both the action switch of handlers.go and the stop route of
routes.go) can never take their 400 branch. -/
theorem c9_stop_never_errors (env : StartEnv) (sleep : MgrState → MgrState)
    (reg : RegTable) (st : MgrState) (m : ModuleManifest)
    (md : List String) (ga moduleID : String) :
    (stopModule sleep st m).fst = .ok () ∧
    (handleModuleAction env sleep reg st md ga moduleID "stop").resp.status ≠ 400 ∧
    (handleStopRoute sleep reg st moduleID).resp.status ≠ 400 := by
  refine ⟨stopModule_fst_ok sleep st m, ?_, ?_⟩
  · unfold handleModuleAction
    cases hg : getManifest reg moduleID with
    | none => simp
    | some mm =>
      rcases hs : stopModule sleep st mm with ⟨r, st1⟩
      have hr : r = .ok () := by
        have := stopModule_fst_ok sleep st mm
        rw [hs] at this
        exact this
      subst hr
      simp [hs]
  · unfold handleStopRoute
    by_cases hid : moduleID = ""
    · simp [hid]
    · simp only [hid, if_false]
      cases hg : getManifest reg moduleID with
      | none => simp
      | some mm =>
        rcases hs : stopModule sleep st mm with ⟨r, st1⟩
        have hr : r = .ok () := by
          have := stopModule_fst_ok sleep st mm
          rw [hs] at this
          exact this
        subst hr
        simp [hs]

/-- Witness for C9: stopping the running module m1 through the
supervisor and through both stop handlers never produces a 400. -/
theorem c9_stop_never_errors_witness :
    (stopModule id stRunW m1W).fst = .ok () ∧
    (handleModuleAction
        { goos := "linux", fs := fun _ => false, dirIsDir := fun _ => false,
          ready := true }
        id [("m1", m1W)] stRunW ["modules"] "hub" "m1" "stop").resp.status ≠ 400 ∧
    (handleStopRoute id [("m1", m1W)] stRunW "m1").resp.status ≠ 400 :=
  c9_stop_never_errors
    { goos := "linux", fs := fun _ => false, dirIsDir := fun _ => false,
      ready := true }
    id [("m1", m1W)] stRunW m1W ["modules"] "hub" "m1"

/-- C7: a start, open-ui or stop request for a module ID absent from
the manifest store answers 404 with an error field, never reaches the
process supervisor, and leaves the handle table unchanged — in the
action-switch handler of handlers.go and in each dedicated route
handler of routes.go. -/
theorem c7_unknown_module_is_404 (env : StartEnv) (sleep : MgrState → MgrState)
    (reg : RegTable) (st : MgrState) (md : List String) (ga moduleID : String)
    (h : getManifest reg moduleID = none) :
    (∀ action, action = "start" ∨ action = "open-ui" ∨ action = "stop" →
      handleModuleAction env sleep reg st md ga moduleID action =
        { resp := { status := 404, errField := some "module not found" },
          st := st, calls := [] }) ∧
    ((handleStartRoute env reg st md ga moduleID).resp.status = 404 ∧
      (handleStartRoute env reg st md ga moduleID).resp.errField.isSome ∧
      (handleStartRoute env reg st md ga moduleID).st = st ∧
      (handleStartRoute env reg st md ga moduleID).calls = []) ∧
    ((handleOpenUIRoute env sleep reg st md ga moduleID).resp.status = 404 ∧
      (handleOpenUIRoute env sleep reg st md ga moduleID).resp.errField.isSome ∧
      (handleOpenUIRoute env sleep reg st md ga moduleID).st = st ∧
      (handleOpenUIRoute env sleep reg st md ga moduleID).calls = []) ∧
    ((handleStopRoute sleep reg st moduleID).resp.status = 404 ∧
      (handleStopRoute sleep reg st moduleID).resp.errField.isSome ∧
      (handleStopRoute sleep reg st moduleID).st = st ∧
      (handleStopRoute sleep reg st moduleID).calls = []) := by
  refine ⟨?_, ?_, ?_, ?_⟩
  · intro action _
    simp [handleModuleAction, h]
  · by_cases hid : moduleID = "" <;> simp [handleStartRoute, hid, h]
  · by_cases hid : moduleID = "" <;> simp [handleOpenUIRoute, hid, h]
  · by_cases hid : moduleID = "" <;> simp [handleStopRoute, hid, h]

/-- Fixture: a one-module registry holding only m1. -/
def regW : RegTable := [("m1", m1W)]

/-- Fixture: a start environment whose probe would succeed but whose
file system is empty. -/
def envEmptyW : StartEnv :=
  { goos := "linux", fs := fun _ => false, dirIsDir := fun _ => false, ready := true }

/-- Witness for C7: a start request for a module ID the registry does
not hold answers 404, does not call the supervisor, and keeps the
state. -/
theorem c7_unknown_module_is_404_witness :
    handleModuleAction envEmptyW id regW {} ["modules"] "hub" "ghost" "start" =
      { resp := { status := 404, errField := some "module not found" },
        st := {}, calls := [] } ∧
    (handleStartRoute envEmptyW regW {} ["modules"] "hub" "ghost").resp.status = 404 := by
  have h := c7_unknown_module_is_404 envEmptyW id regW {} ["modules"] "hub" "ghost"
    (by decide)
  exact ⟨h.1 "start" (Or.inl rfl), h.2.1.1⟩

/-! ## Idempotent start, claim C5 -/

theorem startModule_ok_live (env : StartEnv) (st : MgrState) (m : ModuleManifest)
    (md : List String) (hub : String) (u a : Bool) (st₁ : MgrState)
    (h : startModule env st m md hub u a = (.ok (), st₁)) :
    m.id ≠ "" ∧ m.grpcAddr ≠ "" ∧ isRunning st₁ m.id = true := by
  by_cases hid : m.id = ""
  · simp [startModule, hid] at h
  by_cases hgr : m.grpcAddr = ""
  · simp [startModule, hid, hgr] at h
  refine ⟨hid, hgr, ?_⟩
  by_cases hrun : isRunning st m.id
  · simp [startModule, hid, hgr, hrun] at h
    rw [← h]
    exact hrun
  · simp only [startModule, hid, hgr, if_false, ite_false] at h
    rw [if_neg hrun] at h
    unfold startFresh at h
    cases hres : resolveExecutablePath env.goos env.fs m md u with
    | error e => simp [hres] at h
    | ok exePath =>
      rw [hres] at h
      cases hmk : env.mkdirErr with
      | some e => simp [hmk] at h
      | none =>
        rw [hmk] at h
        cases hsp : env.spawnErr with
        | some e => simp [hsp] at h
        | none =>
          rw [hsp] at h
          cases hready : env.ready with
          | false => simp [hready] at h
          | true =>
            simp only [hready, if_true, Prod.mk.injEq, true_and] at h
            rw [← h]
            simp [isRunning, mapLookup_insert_self]

/-- C5: start is idempotent while the module is running: when a start
call returned success, a second start call for the same manifest
returns success and leaves the manager state exactly as it was, so no
second process is spawned. -/
theorem c5_start_idempotent (env env' : StartEnv) (st : MgrState)
    (m : ModuleManifest) (md md' : List String) (hub hub' : String)
    (u u' a a' : Bool) (st₁ : MgrState)
    (h : startModule env st m md hub u a = (.ok (), st₁)) :
    startModule env' st₁ m md' hub' u' a' = (.ok (), st₁) := by
  obtain ⟨hid, hgr, hrun⟩ := startModule_ok_live env st m md hub u a st₁ h
  simp [startModule, hid, hgr, hrun]

/-- Fixture: a manifest whose executable exists under the modules
directory. -/
def mSpawnW : ModuleManifest :=
  { id := "m1", grpcAddr := "127.0.0.1:19101",
    executable := some [("linux", "m1bin")] }

/-- Fixture: an environment in which the spawn of mSpawnW succeeds and
the readiness probe passes. -/
def envSpawnW : StartEnv :=
  { goos := "linux", fs := fun p => p = ["modules", "m1", "m1bin"],
    dirIsDir := fun _ => true, ready := true }

/-- Fixture: the manager state after a successful start of mSpawnW
from the empty state. -/
def stAfterW : MgrState :=
  { processes := [("m1", { pid := 0, exitedObserved := false, waiterSpawned := true })],
    livePids := [0], nextPid := 1,
    spawned := [{ exe := ["modules", "m1", "m1bin"], dir := ["modules", "m1"],
                  dataDir := ["modules", "m1", "data"] }] }

/-- Witness for C5: after one successful start of m1, a second start
returns success with the state unchanged, so exactly one process was
spawned. -/
theorem c5_start_idempotent_witness :
    startModule envSpawnW stAfterW mSpawnW ["modules"] "hub" false true =
      (.ok (), stAfterW) :=
  c5_start_idempotent envSpawnW envSpawnW {} mSpawnW ["modules"] ["modules"]
    "hub" "hub" false false true true stAfterW (by rfl)

/-! ## Registry claims C3, C6 -/

theorem scanLoop_cons_skip (store : Store) (e : DirEntry) (rest : List DirEntry)
    (h : validOf e = none) : scanLoop store (e :: rest) = scanLoop store rest := by
  obtain ⟨name, isDir, file⟩ := e
  cases isDir with
  | false => simp [scanLoop]
  | true =>
    cases file with
    | missing => simp [scanLoop]
    | invalid => simp [scanLoop]
    | parsed m =>
      simp only [validOf, if_true] at h
      by_cases hid : m.id = ""
      · simp [scanLoop, hid]
      · simp [hid] at h

theorem scanLoop_cons_install (store : Store) (e : DirEntry) (rest : List DirEntry)
    (m : ModuleManifest) (h : validOf e = some m) :
    scanLoop store (e :: rest) = scanLoop (mapInsert store m.id m) rest := by
  obtain ⟨name, isDir, file⟩ := e
  cases isDir with
  | false => simp [validOf] at h
  | true =>
    cases file with
    | missing => simp [validOf] at h
    | invalid => simp [validOf] at h
    | parsed m0 =>
      simp only [validOf, if_true] at h
      by_cases hid : m0.id = ""
      · simp [hid] at h
      · simp only [hid, if_false, Option.some.injEq] at h
        subst h
        simp [scanLoop, hid]

theorem validManifests_cons_none (e : DirEntry) (rest : List DirEntry)
    (h : validOf e = none) :
    validManifests (e :: rest) = validManifests rest := by
  simp [validManifests, List.filterMap_cons, h]

theorem validManifests_cons_some (e : DirEntry) (rest : List DirEntry)
    (m : ModuleManifest) (h : validOf e = some m) :
    validManifests (e :: rest) = m :: validManifests rest := by
  simp [validManifests, List.filterMap_cons, h]

theorem scanLoop_fresh : ∀ (entries : List DirEntry) (store : Store),
    (∀ m ∈ validManifests entries, mapLookup store m.id = none) →
    (validManifests entries).Pairwise (fun a b => a.id ≠ b.id) →
    scanLoop store entries =
      store ++ (validManifests entries).map (fun m => (m.id, m)) := by
  intro entries
  induction entries with
  | nil => intro store _ _; simp [scanLoop, validManifests]
  | cons e rest ih =>
    intro store habs hpw
    cases hv : validOf e with
    | none =>
      rw [scanLoop_cons_skip store e rest hv, validManifests_cons_none e rest hv]
      rw [validManifests_cons_none e rest hv] at habs hpw
      exact ih store habs hpw
    | some m =>
      rw [scanLoop_cons_install store e rest m hv,
        validManifests_cons_some e rest m hv]
      rw [validManifests_cons_some e rest m hv] at habs hpw
      have hm0 : mapLookup store m.id = none := habs m (List.mem_cons_self _ _)
      rw [mapInsert_of_absent store m.id m hm0]
      obtain ⟨hhead, htail⟩ := List.pairwise_cons.mp hpw
      have habs' : ∀ m' ∈ validManifests rest,
          mapLookup (store ++ [(m.id, m)]) m'.id = none := by
        intro m' hm'
        rw [mapLookup_append_of_none store _ _ (habs m' (List.mem_cons_of_mem _ hm'))]
        have hne : ¬m.id = m'.id := hhead m' hm'
        simp [mapLookup, hne]
      rw [ih (store ++ [(m.id, m)]) habs' htail]
      simp

/-- C3: ScanModules returns an error exactly when the directory itself
is unreadable; given a readable listing, the scan succeeds, and
starting from an empty store it installs exactly the valid manifests
(directory entries whose manifest.json reads, parses and carries a
non-empty ID) while every invalid entry is skipped without aborting
the scan. -/
theorem c3_scan_installs_exactly_valid (dirErr : String)
    (entries : List DirEntry) (store : Store) :
    scanModules (.error dirErr) store = .error dirErr ∧
    (∃ s, scanModules (.ok entries) store = .ok s) ∧
    ((validManifests entries).Pairwise (fun a b => a.id ≠ b.id) →
      scanModules (.ok entries) ([] : Store) =
        .ok ((validManifests entries).map (fun m => (m.id, m)))) := by
  refine ⟨rfl, ⟨scanLoop store entries, rfl⟩, ?_⟩
  intro hpw
  have h := scanLoop_fresh entries [] (by intro m _; simp [mapLookup]) hpw
  simp only [scanModules, h]
  simp

/-- Fixture: a directory entry holding a valid manifest for m1. -/
def entryM1W : DirEntry := { name := "m1", isDir := true, file := .parsed m1W }

/-- Fixture: a directory entry whose manifest.json does not parse. -/
def entryBadW : DirEntry := { name := "broken", isDir := true, file := .invalid }

/-- Fixture: a directory entry with no manifest.json. -/
def entryMissW : DirEntry := { name := "empty-dir", isDir := true, file := .missing }

/-- Fixture: a plain file in the modules directory (not a directory). -/
def entryFileW : DirEntry := { name := "README", isDir := false, file := .missing }

/-- Fixture: a directory entry whose manifest parses but has an empty
ID. -/
def entryNoIdW : DirEntry :=
  { name := "anon", isDir := true, file := .parsed { id := "" } }

/-- Witness for C3: scanning one valid and four invalid entries
installs exactly the one valid manifest, and an unreadable directory
is the only error. -/
theorem c3_scan_installs_exactly_valid_witness :
    scanModules (.error "permission denied") ([] : Store) =
      .error "permission denied" ∧
    scanModules (.ok [entryM1W, entryBadW, entryMissW, entryFileW, entryNoIdW])
        ([] : Store) = .ok [("m1", m1W)] := by
  have h := c3_scan_installs_exactly_valid "permission denied"
    [entryM1W, entryBadW, entryMissW, entryFileW, entryNoIdW] []
  exact ⟨h.1, h.2.2 (by decide)⟩

theorem scanLoop_preserves : ∀ (entries : List DirEntry) (store : Store)
    (id : String), (mapLookup store id).isSome →
    (mapLookup (scanLoop store entries) id).isSome ∧
    (mapLookup (scanLoop store entries) id = mapLookup store id ∨
      ∃ m ∈ validManifests entries, m.id = id ∧
        mapLookup (scanLoop store entries) id = some m) := by
  intro entries
  induction entries with
  | nil =>
    intro store id h
    exact ⟨by simpa [scanLoop] using h, Or.inl (by simp [scanLoop])⟩
  | cons e rest ih =>
    intro store id h
    cases hv : validOf e with
    | none =>
      rw [scanLoop_cons_skip store e rest hv, validManifests_cons_none e rest hv]
      exact ih store id h
    | some m =>
      rw [scanLoop_cons_install store e rest m hv,
        validManifests_cons_some e rest m hv]
      by_cases hid : id = m.id
      · have h' : (mapLookup (mapInsert store m.id m) id).isSome := by
          rw [hid, mapLookup_insert_self]
          rfl
        obtain ⟨hs, hd⟩ := ih (mapInsert store m.id m) id h'
        refine ⟨hs, ?_⟩
        cases hd with
        | inl heq =>
          right
          exact ⟨m, List.mem_cons_self _ _, hid.symm,
            by rw [heq, hid, mapLookup_insert_self]⟩
        | inr hex =>
          obtain ⟨m', hm', hid', hl⟩ := hex
          exact Or.inr ⟨m', List.mem_cons_of_mem _ hm', hid', hl⟩
      · have hl : mapLookup (mapInsert store m.id m) id = mapLookup store id :=
          mapLookup_insert_ne store m.id id m hid
        have h' : (mapLookup (mapInsert store m.id m) id).isSome := by
          rw [hl]; exact h
        obtain ⟨hs, hd⟩ := ih (mapInsert store m.id m) id h'
        refine ⟨hs, ?_⟩
        cases hd with
        | inl heq => exact Or.inl (by rw [heq, hl])
        | inr hex =>
          obtain ⟨m', hm', hid', hlk⟩ := hex
          exact Or.inr ⟨m', List.mem_cons_of_mem _ hm', hid', hlk⟩

/-- C6: a rescan never deletes a store entry: every module ID present
before the scan is still present after it, bound either to its old
manifest or to a manifest the scan installed under the same ID;
omission from the scanned directory removes nothing. -/
theorem c6_scan_never_deletes (entries : List DirEntry) (store : Store)
    (id : String) (h : (mapLookup store id).isSome) :
    ∃ s, scanModules (.ok entries) store = .ok s ∧
      (mapLookup s id).isSome ∧
      (mapLookup s id = mapLookup store id ∨
        ∃ m ∈ validManifests entries, m.id = id ∧ mapLookup s id = some m) := by
  refine ⟨scanLoop store entries, rfl, ?_⟩
  exact scanLoop_preserves entries store id h

/-- Fixture: a manifest present before a rescan whose directory has
disappeared. -/
def mOldW : ModuleManifest := { id := "old", grpcAddr := "127.0.0.1:19109" }

/-- Witness for C6: rescanning a directory that no longer contains the
old module keeps its store entry. -/
theorem c6_scan_never_deletes_witness :
    ∃ s, scanModules (.ok [entryM1W]) [("old", mOldW)] = .ok s ∧
      (mapLookup s "old").isSome ∧
      (mapLookup s "old" = mapLookup [("old", mOldW)] "old" ∨
        ∃ m ∈ validManifests [entryM1W], m.id = "old" ∧
          mapLookup s "old" = some m) :=
  c6_scan_never_deletes [entryM1W] [("old", mOldW)] "old" (by decide)

/-! ## Executable resolution policy, claim C4 -/

/-- Fixture: the companion module manifest. -/
def mNetW : ModuleManifest :=
  { id := "com.nekkus.net", grpcAddr := "127.0.0.1:19200",
    executable := some [("linux", "nekkus-net-bin")] }

/-- Fixture: the modules directory of a hub checkout that sits next to
the nekkus-net repository. -/
def mdNetW : List String := ["home", "u", "nekkus", "nekkus-hub", "modules"]

/-- Fixture: the dev artifact location build/bin inside the sibling
repository. -/
def devBuildPathW : List String :=
  ["home", "u", "nekkus", "nekkus-net", "build", "bin", "nekkus-net-bin"]

/-- Fixture: a file system holding only the dev artifact at the
non-final build location. -/
def fsDevW : List String → Bool := fun p => p = devBuildPathW

/-- Fixture: a start environment over fsDevW with a passing readiness
probe. -/
def envDevW : StartEnv :=
  { goos := "linux", fs := fsDevW, dirIsDir := fun _ => false, ready := true }

/-- C4 counterexample: with showUI (requireRelease) set, an executable
absent from modulesDir/com.nekkus.net, and a dev artifact present at
the sibling build/bin location, resolution returns that artifact and
start launches it successfully — it does not reject with the release
build not found error as the claim states. -/
theorem c4_counterexample_dev_artifact_launched :
    resolveExecutablePath "linux" fsDevW mNetW mdNetW true = .ok devBuildPathW ∧
    (startModule envDevW {} mNetW mdNetW "hub" true false).fst = .ok () ∧
    (startModule envDevW {} mNetW mdNetW "hub" true false).snd.spawned =
      [{ exe := devBuildPathW,
         dir := ["home", "u", "nekkus", "nekkus-net", "build", "bin"],
         dataDir := ["nekkus", "net"] }] :=
  ⟨rfl, rfl, by decide⟩

/-- C4 amended: requireRelease only selects the error message when no
location has the executable. An artifact found at the non-final
build/bin fallback is returned (and hence launched) regardless of
requireRelease; the release build not found error is produced exactly
when the executable is absent from modulesDir/(id) and from every
sibling-repository fallback location and requireRelease is set. -/
theorem c4_amended_release_policy (goos : String) (fs : List String → Bool)
    (m : ModuleManifest) (md : List String) (exeMap : List (String × String))
    (exeName : String)
    (hid : m.id = "com.nekkus.net")
    (hexe : m.executable = some exeMap)
    (hname : (mapLookup exeMap goos).getD "" = exeName)
    (hne : exeName ≠ "")
    (h1 : fs ((md ++ [m.id]) ++ [exeName]) = false)
    (h2 : fs (cleanSegs (md ++ ["..", "..", "nekkus-net"]) ++ [exeName]) = false) :
    (∀ rr, fs (cleanSegs (md ++ ["..", "..", "nekkus-net"]) ++ ["build", "bin", exeName]) = true →
      resolveExecutablePath goos fs m md rr =
        .ok (cleanSegs (md ++ ["..", "..", "nekkus-net"]) ++ ["build", "bin", exeName])) ∧
    (fs (cleanSegs (md ++ ["..", "..", "nekkus-net"]) ++ ["build", "bin", exeName]) = false →
      fs (cleanSegs (md ++ ["..", "..", "nekkus-net"]) ++ ["bin", exeName]) = false →
      resolveExecutablePath goos fs m md true =
        .error ("release build not found for " ++ m.id ++
          "; run: cd nekkus-net && go build -o " ++ exeName ++ " ./cmd")) := by
  rw [hid] at h1
  simp only [List.append_assoc, List.singleton_append] at h1
  constructor
  · intro rr hb
    simp [resolveExecutablePath, hexe, hname, hne, hid, h1, h2, hb]
  · intro hb hbin
    simp [resolveExecutablePath, hexe, hname, hne, hid, h1, h2, hb, hbin]

/-- Fixture: a file system with no executable anywhere. -/
def fsNoneW : List String → Bool := fun _ => false

/-- Witness for the amended C4: over fsDevW the dev artifact is
returned even with requireRelease, and over an empty file system
requireRelease yields the release build not found error. -/
theorem c4_amended_release_policy_witness :
    resolveExecutablePath "linux" fsDevW mNetW mdNetW true = .ok devBuildPathW ∧
    resolveExecutablePath "linux" fsNoneW mNetW mdNetW true =
      .error "release build not found for com.nekkus.net; run: cd nekkus-net && go build -o nekkus-net-bin ./cmd" := by
  constructor
  · have h := (c4_amended_release_policy "linux" fsDevW mNetW mdNetW
      [("linux", "nekkus-net-bin")] "nekkus-net-bin" rfl rfl rfl
      (by decide) (by decide) (by decide)).1 true (by decide)
    exact h
  · have h := (c4_amended_release_policy "linux" fsNoneW mNetW mdNetW
      [("linux", "nekkus-net-bin")] "nekkus-net-bin" rfl rfl rfl
      (by decide) (by decide) (by decide)).2 (by decide) (by decide)
    exact h

/-! ## Stale handle after readiness timeout, claim C1 -/

/-- Fixture: a module whose executable exists and spawns but whose
gRPC port never comes up. -/
def mAcmeW : ModuleManifest :=
  { id := "com.acme.net", grpcAddr := "127.0.0.1:19100",
    executable := some [("linux", "acme-net")] }

/-- Fixture: the environment in which mAcmeW spawns but the readiness
probe times out. -/
def envNotReadyW : StartEnv :=
  { goos := "linux", fs := fun p => p = ["modules", "com.acme.net", "acme-net"],
    dirIsDir := fun _ => true, ready := false }

/-- Fixture: the manager state left behind by the failed start of
mAcmeW: the process was killed (livePids empty) but its handle is
still in the table and no exit waiter was spawned for it. -/
def stStaleW : MgrState :=
  { processes := [("com.acme.net",
      { pid := 0, exitedObserved := false, waiterSpawned := false })],
    livePids := [], nextPid := 1,
    spawned := [{ exe := ["modules", "com.acme.net", "acme-net"],
                  dir := ["modules", "com.acme.net"],
                  dataDir := ["modules", "com.acme.net", "data"] }] }

/-- C1: the claim fails on the code. A start that misses its readiness
deadline kills the process and returns the not-ready error, but the
exit waiter is spawned only after a successful probe, so the killed
process leaves a handle that no exit-reaping step can remove:
IsRunning stays true, the reap step is never enabled and is a no-op,
and a subsequent start reports success without spawning anything. In
contrast, after a successful start (stAfterW) the waiter exists and
reaping does remove the handle once the process exits. -/
theorem c1_readiness_timeout_leaves_stale_handle :
    startModule envNotReadyW {} mAcmeW ["modules"] "127.0.0.1:9000" false true =
      (.error "grpc not ready at 127.0.0.1:19100", stStaleW) ∧
    isRunning stStaleW "com.acme.net" = true ∧
    reapEnabled stStaleW "com.acme.net" = false ∧
    reapStep stStaleW "com.acme.net" = stStaleW ∧
    startModule envNotReadyW stStaleW mAcmeW ["modules"] "127.0.0.1:9000" false true =
      (.ok (), stStaleW) ∧
    reapEnabled (exitStep stAfterW 0) "m1" = true ∧
    (reapStep (exitStep stAfterW 0) "m1").processes = [] :=
  ⟨rfl, by decide, by decide, by decide, rfl, by decide, by decide⟩

end NekkusHub
